import Mathlib

/-!
Verification of the Plinth PageKite module (src/modules/pagekite/pagekite.py).

The module drives an external CLI tool `pagekite-configure`.  We embed the
CLI as a pure environment mapping an argument list to a pair
(standard output, error output), and translate the three functions the
claims are about: `_run`, `get_status` and `_apply_changes`.
-/

namespace Pagekite

/-- The external CLI: an argument list maps to (standard output, error output). -/
def Env : Type := List String → String × String

/-- Helper for `pySplit`: walk the characters, accumulating the current
token in reverse; a whitespace character ends the current token (if any),
and a trailing token is flushed at the end. -/
def pySplitAux : List Char → List Char → List String
  | [], [] => []
  | [], acc => [String.mk acc.reverse]
  | c :: cs, acc =>
    if c.isWhitespace then
      match acc with
      | [] => pySplitAux cs []
      | _ => String.mk acc.reverse :: pySplitAux cs []
    else pySplitAux cs (c :: acc)

/-- Python `str.split()` with no arguments: split on runs of whitespace,
dropping empty tokens (so leading and trailing whitespace is ignored and
the empty string yields no tokens). -/
def pySplit (s : String) : List String :=
  pySplitAux s.data []

/-- `_run` (pagekite.py lines 195-210): invoke the CLI with the given
arguments; if the error output is nonempty (Python `if error:`), raise an
exception carrying the error text (with the source's typo preserved),
otherwise return the standard output unchanged. -/
def run (env : Env) (arguments : List String) : Except String String :=
  let output := (env arguments).1
  let error := (env arguments).2
  if error ≠ "" then
    Except.error ("Error setting/getting PageKite confguration - " ++ error)
  else
    Except.ok output

/-- The flat status record of the spec's data model: the five fields
read and written through the configuration form. -/
structure Status where
  enabled : Bool
  kite_name : String
  kite_secret : String
  http_enabled : Bool
  ssh_enabled : Bool
deriving DecidableEq

/-- One conditional step of `_apply_changes`: a guard (the field
comparison), the CLI argument list issued when the guard holds, and the
message appended after the call succeeds. -/
structure Step where
  guard : Bool
  args : List String
  msg : Option (String × String)
deriving DecidableEq

/-- The sequence of conditional steps of `_apply_changes`
(pagekite.py lines 157-192), in source order:
stop (if the mappings differ), set-status (if `enabled` changed),
set-kite (if the kite name or secret changed), set-service-status for
http then ssh (if the service flag changed), start (if the mappings
differ).  Message texts are the source's literals, with
`.format(service=service)` applied. -/
def applySteps (old_status new_status : Status) : List Step :=
  [ ⟨decide (old_status ≠ new_status), ["stop"], none⟩,
    ⟨decide (old_status.enabled ≠ new_status.enabled),
      if new_status.enabled then ["set-status", "enable"]
      else ["set-status", "disable"],
      some (if new_status.enabled then ("success", "PageKite enabled")
        else ("success", "PageKite disabled"))⟩,
    ⟨decide (old_status.kite_name ≠ new_status.kite_name ∨
        old_status.kite_secret ≠ new_status.kite_secret),
      ["set-kite", "--kite-name", new_status.kite_name,
        "--kite-secret", new_status.kite_secret],
      some ("success", "Kite details set")⟩,
    ⟨decide (old_status.http_enabled ≠ new_status.http_enabled),
      ["set-service-status", "http",
        if new_status.http_enabled then "enable" else "disable"],
      some ("success", if new_status.http_enabled then "Service enabled: http"
        else "Service disabled: http")⟩,
    ⟨decide (old_status.ssh_enabled ≠ new_status.ssh_enabled),
      ["set-service-status", "ssh",
        if new_status.ssh_enabled then "enable" else "disable"],
      some ("success", if new_status.ssh_enabled then "Service enabled: ssh"
        else "Service disabled: ssh")⟩,
    ⟨decide (old_status ≠ new_status), ["start"], none⟩ ]

/-- Result of executing `_apply_changes` against an environment:
the CLI calls attempted in order, the messages appended, and the
exception text if one propagated. -/
structure ApplyResult where
  calls : List (List String)
  messages : List (String × String)
  error : Option String
deriving DecidableEq

/-- Execute the steps in order: a step whose guard is false is skipped;
a step whose guard holds issues its CLI call through `_run`; on an
exception the execution stops at once (the failing call was attempted,
its message is not appended, no later step runs). -/
def execSteps (env : Env) : List Step → ApplyResult
  | [] => ⟨[], [], none⟩
  | s :: rest =>
    if s.guard then
      match run env s.args with
      | Except.error e => ⟨[s.args], [], some e⟩
      | Except.ok _ =>
        let r := execSteps env rest
        ⟨s.args :: r.calls, s.msg.toList ++ r.messages, r.error⟩
    else execSteps env rest

/-- The CLI calls `_apply_changes` emits, in order, when no call fails. -/
def applyTrace (old_status new_status : Status) : List (List String) :=
  (((applySteps old_status new_status).filter (fun s => s.guard)).map
    (fun s => s.args))

/-- The messages `_apply_changes` appends, in order, when no call fails. -/
def applyMessages (old_status new_status : Status) : List (String × String) :=
  (((applySteps old_status new_status).filter (fun s => s.guard)).filterMap
    (fun s => s.msg))

/-- The local state `_apply_changes` acts on: its three parameters.
`old_status` and `new_status` are only read; `messages` is appended to. -/
structure PyState where
  old_status : Status
  new_status : Status
  messages : List (String × String)
deriving DecidableEq

/-- `_apply_changes` as a transformer of its parameter state, also
reporting the calls attempted and the exception, if any. -/
def applyChangesProc (env : Env) (s : PyState) : PyState × ApplyResult :=
  let r := execSteps env (applySteps s.old_status s.new_status)
  (⟨s.old_status, s.new_status, s.messages ++ r.messages⟩, r)

/-- A Python value appearing in the status dictionary built by
`get_status`: a boolean, a string, or a dictionary. -/
inductive PyValue where
  | bool (b : Bool)
  | str (s : String)
  | dict (entries : List (String × PyValue))

/-- A Python exception raised inside `get_status`: an `IndexError` from
`output.split()[i]`, or the exception `_run` raises on nonempty error
output. -/
inductive PyErr where
  | indexError
  | runError (msg : String)
deriving DecidableEq

/-- `_run` inside `get_status`: its exception tagged as a run error. -/
def runP (env : Env) (arguments : List String) : Except PyErr String :=
  match run env arguments with
  | Except.ok output => Except.ok output
  | Except.error e => Except.error (PyErr.runError e)

/-- Python list indexing `l[i]`: `IndexError` when out of range. -/
def pyIdx (l : List String) (i : Nat) : Except PyErr String :=
  match l.get? i with
  | some x => Except.ok x
  | none => Except.error PyErr.indexError

/-- `get_status` (pagekite.py lines 125-154): run `get-installed` and
return `None` unless its first token is `installed`; otherwise build the
status dictionary, in insertion order, from `get-status`, `get-kite` and
`get-service-status` for http and ssh.  The source also inserts
`status['service'] = {}` before the service loop and never fills it. -/
def get_status (env : Env) : Except PyErr (Option (List (String × PyValue))) := do
  let instOut ← runP env ["get-installed"]
  let instTok ← pyIdx (pySplit instOut) 0
  if instTok ≠ "installed" then
    pure none
  else do
    let statusOut ← runP env ["get-status"]
    let statusTok ← pyIdx (pySplit statusOut) 0
    let kiteOut ← runP env ["get-kite"]
    let kite_name ← pyIdx (pySplit kiteOut) 0
    let kite_secret ← pyIdx (pySplit kiteOut) 1
    let httpOut ← runP env ["get-service-status", "http"]
    let httpTok ← pyIdx (pySplit httpOut) 0
    let sshOut ← runP env ["get-service-status", "ssh"]
    let sshTok ← pyIdx (pySplit sshOut) 0
    pure (some
      [("enabled", PyValue.bool (decide (statusTok = "enabled"))),
       ("kite_name", PyValue.str kite_name),
       ("kite_secret", PyValue.str kite_secret),
       ("service", PyValue.dict []),
       ("http_enabled", PyValue.bool (decide (httpTok = "enabled"))),
       ("ssh_enabled", PyValue.bool (decide (sshTok = "enabled")))])

/-- All five fields of two status mappings agree. -/
def statusFieldsEq (a b : Status) : Prop :=
  a.enabled = b.enabled ∧ a.kite_name = b.kite_name ∧
  a.kite_secret = b.kite_secret ∧ a.http_enabled = b.http_enabled ∧
  a.ssh_enabled = b.ssh_enabled

instance (a b : Status) : Decidable (statusFieldsEq a b) := by
  unfold statusFieldsEq; infer_instance

end Pagekite

namespace Pagekite

lemma status_eq_iff (a b : Status) : a = b ↔ statusFieldsEq a b := by
  cases a; cases b; simp [statusFieldsEq]

lemma applyTrace_eq (old_status new_status : Status) :
    applyTrace old_status new_status =
      (if old_status ≠ new_status then [["stop"]] else []) ++
      (if old_status.enabled ≠ new_status.enabled then
        [if new_status.enabled then ["set-status", "enable"]
          else ["set-status", "disable"]] else []) ++
      (if old_status.kite_name ≠ new_status.kite_name ∨
          old_status.kite_secret ≠ new_status.kite_secret then
        [["set-kite", "--kite-name", new_status.kite_name,
          "--kite-secret", new_status.kite_secret]] else []) ++
      (if old_status.http_enabled ≠ new_status.http_enabled then
        [["set-service-status", "http",
          if new_status.http_enabled then "enable" else "disable"]] else []) ++
      (if old_status.ssh_enabled ≠ new_status.ssh_enabled then
        [["set-service-status", "ssh",
          if new_status.ssh_enabled then "enable" else "disable"]] else []) ++
      (if old_status ≠ new_status then [["start"]] else []) := by
  by_cases h0 : old_status = new_status <;>
  by_cases h1 : old_status.enabled = new_status.enabled <;>
  by_cases h2 : old_status.kite_name ≠ new_status.kite_name ∨
      old_status.kite_secret ≠ new_status.kite_secret <;>
  by_cases h3 : old_status.http_enabled = new_status.http_enabled <;>
  by_cases h4 : old_status.ssh_enabled = new_status.ssh_enabled <;>
  simp_all [applyTrace, applySteps]

end Pagekite

namespace Pagekite

/-- C1: stop and start are each emitted exactly once iff some status field
differs, and an unchanged status emits no CLI call at all. -/
theorem apply_changes_stop_start_iff_changed (old_status new_status : Status) :
    ((applyTrace old_status new_status).count ["stop"] =
      if statusFieldsEq old_status new_status then 0 else 1) ∧
    ((applyTrace old_status new_status).count ["start"] =
      if statusFieldsEq old_status new_status then 0 else 1) ∧
    (statusFieldsEq old_status new_status →
      applyTrace old_status new_status = []) := by
  by_cases hF : statusFieldsEq old_status new_status
  · have heq : old_status = new_status := (status_eq_iff _ _).2 hF
    subst heq
    simp [applyTrace_eq, hF]
  · have hne : old_status ≠ new_status := fun h => hF ((status_eq_iff _ _).1 h)
    rw [applyTrace_eq]
    by_cases h1 : old_status.enabled = new_status.enabled <;>
    by_cases h2 : old_status.kite_name ≠ new_status.kite_name ∨
        old_status.kite_secret ≠ new_status.kite_secret <;>
    by_cases h3 : old_status.http_enabled = new_status.http_enabled <;>
    by_cases h4 : old_status.ssh_enabled = new_status.ssh_enabled <;>
    simp_all [List.count_cons, List.count_append] <;>
    split_ifs <;> simp_all

end Pagekite

namespace Pagekite

lemma count_ite_singleton (P : Prop) [Decidable P] (x c : List String) :
    ((if P then [x] else []).count c) = if P ∧ c = x then 1 else 0 := by
  split_ifs <;> simp_all [List.count_cons, List.count_nil]

/-- C2: a set-status call is emitted exactly once, with the argument
matching the new enabled value, iff the enabled field changed, and for
each of http and ssh a set-service-status call is emitted exactly once,
with the argument matching the new value, iff that service flag changed;
no such call appears for an unchanged field or with any other argument. -/
theorem apply_changes_field_calls (old_status new_status : Status)
    (arg : String) :
    ((applyTrace old_status new_status).count ["set-status", arg] =
      if old_status.enabled ≠ new_status.enabled ∧
          arg = (if new_status.enabled then "enable" else "disable")
        then 1 else 0) ∧
    ((applyTrace old_status new_status).count
        ["set-service-status", "http", arg] =
      if old_status.http_enabled ≠ new_status.http_enabled ∧
          arg = (if new_status.http_enabled then "enable" else "disable")
        then 1 else 0) ∧
    ((applyTrace old_status new_status).count
        ["set-service-status", "ssh", arg] =
      if old_status.ssh_enabled ≠ new_status.ssh_enabled ∧
          arg = (if new_status.ssh_enabled then "enable" else "disable")
        then 1 else 0) := by
  rw [applyTrace_eq]
  simp only [List.count_append, count_ite_singleton]
  refine ⟨?_, ?_, ?_⟩
  · by_cases h1 : old_status.enabled = new_status.enabled <;>
    by_cases hb : new_status.enabled = true <;>
    by_cases ha1 : arg = "enable" <;>
    by_cases ha2 : arg = "disable" <;>
    simp_all
  · by_cases h3 : old_status.http_enabled = new_status.http_enabled <;>
    by_cases hbh : new_status.http_enabled = true <;>
    by_cases hb : new_status.enabled = true <;>
    by_cases ha1 : arg = "enable" <;>
    by_cases ha2 : arg = "disable" <;>
    simp_all
  · by_cases h4 : old_status.ssh_enabled = new_status.ssh_enabled <;>
    by_cases hbs : new_status.ssh_enabled = true <;>
    by_cases hb : new_status.enabled = true <;>
    by_cases ha1 : arg = "enable" <;>
    by_cases ha2 : arg = "disable" <;>
    simp_all

/-- C3: a set-kite call carrying the new kite name and secret is emitted
exactly once iff the kite name or secret changed, and every emitted
set-kite call is that call. -/
theorem apply_changes_set_kite (old_status new_status : Status) :
    ((applyTrace old_status new_status).count
        ["set-kite", "--kite-name", new_status.kite_name,
          "--kite-secret", new_status.kite_secret] =
      if old_status.kite_name ≠ new_status.kite_name ∨
          old_status.kite_secret ≠ new_status.kite_secret then 1 else 0) ∧
    (∀ c ∈ applyTrace old_status new_status, c.head? = some "set-kite" →
      c = ["set-kite", "--kite-name", new_status.kite_name,
        "--kite-secret", new_status.kite_secret]) := by
  rw [applyTrace_eq]
  constructor
  · simp only [List.count_append, count_ite_singleton]
    by_cases h2 : old_status.kite_name ≠ new_status.kite_name ∨
        old_status.kite_secret ≠ new_status.kite_secret <;>
    by_cases hb : new_status.enabled = true <;>
    by_cases hbh : new_status.http_enabled = true <;>
    by_cases hbs : new_status.ssh_enabled = true <;>
    simp_all
  · intro c hc hhead
    by_cases hb : new_status.enabled = true <;>
    by_cases hbh : new_status.http_enabled = true <;>
    by_cases hbs : new_status.ssh_enabled = true <;>
    simp_all [List.mem_append] <;>
    rcases hc with hc | hc | hc | hc | hc | hc <;>
    simp_all

/-- C4: the emitted calls are exactly: stop (iff some field changed),
then the set calls in the fixed order set-status, set-kite,
set-service-status http, set-service-status ssh (each present iff its
field changed), then start (iff some field changed). -/
theorem apply_changes_call_order (old_status new_status : Status) :
    applyTrace old_status new_status =
      (if ¬ statusFieldsEq old_status new_status then [["stop"]] else []) ++
      (if old_status.enabled ≠ new_status.enabled then
        [["set-status", if new_status.enabled then "enable" else "disable"]]
        else []) ++
      (if old_status.kite_name ≠ new_status.kite_name ∨
          old_status.kite_secret ≠ new_status.kite_secret then
        [["set-kite", "--kite-name", new_status.kite_name,
          "--kite-secret", new_status.kite_secret]] else []) ++
      (if old_status.http_enabled ≠ new_status.http_enabled then
        [["set-service-status", "http",
          if new_status.http_enabled then "enable" else "disable"]] else []) ++
      (if old_status.ssh_enabled ≠ new_status.ssh_enabled then
        [["set-service-status", "ssh",
          if new_status.ssh_enabled then "enable" else "disable"]] else []) ++
      (if ¬ statusFieldsEq old_status new_status then [["start"]] else []) := by
  rw [applyTrace_eq]
  by_cases hF : statusFieldsEq old_status new_status
  · have heq : old_status = new_status := (status_eq_iff _ _).2 hF
    subst heq
    simp [hF]
  · have hne : old_status ≠ new_status := fun h => hF ((status_eq_iff _ _).1 h)
    by_cases h1 : old_status.enabled = new_status.enabled <;>
    by_cases hb : new_status.enabled = true <;>
    simp_all

end Pagekite

namespace Pagekite

/-- C5: `_run` raises exactly when the CLI error output is nonempty, and
otherwise returns the standard output unchanged. -/
theorem run_raises_iff_error_output (env : Env) (arguments : List String) :
    ((env arguments).2 ≠ "" →
      run env arguments = Except.error
        ("Error setting/getting PageKite confguration - " ++ (env arguments).2)) ∧
    ((env arguments).2 = "" →
      run env arguments = Except.ok (env arguments).1) := by
  constructor <;> intro h <;> simp [run, h]

/-- Witness for `run_raises_iff_error_output` at concrete environments. -/
theorem run_raises_iff_error_output_witness :
    run (fun _ => ("out", "boom")) ["stop"] =
      Except.error ("Error setting/getting PageKite confguration - " ++ "boom") ∧
    run (fun _ => ("out", "")) ["get-status"] = Except.ok "out" :=
  ⟨(run_raises_iff_error_output (fun _ => ("out", "boom")) ["stop"]).1 (by decide),
    (run_raises_iff_error_output (fun _ => ("out", "")) ["get-status"]).2 rfl⟩

lemma execSteps_calls (env : Env) (steps : List Step) :
    (execSteps env steps).calls =
      (((steps.filter (fun s => s.guard)).map (fun s => s.args)).take
        (((steps.filter (fun s => s.guard)).map (fun s => s.args)).findIdx
          (fun a => decide ((env a).2 ≠ "")) + 1)) := by
  induction steps with
  | nil => simp [execSteps]
  | cons s rest ih =>
    by_cases hg : s.guard = true
    · by_cases hf : (env s.args).2 = ""
      · have hr : run env s.args = Except.ok (env s.args).1 := by simp [run, hf]
        simp [execSteps, hg, hr, List.filter_cons, List.findIdx_cons, hf, ih]
      · have hr : run env s.args = Except.error
            ("Error setting/getting PageKite confguration - " ++ (env s.args).2) := by
          simp [run, hf]
        simp [execSteps, hg, hr, List.filter_cons, List.findIdx_cons, hf]
    · simp [execSteps, hg, List.filter_cons, ih]

lemma execSteps_error_isSome (env : Env) (steps : List Step) :
    (execSteps env steps).error.isSome =
      ((steps.filter (fun s => s.guard)).map (fun s => s.args)).any
        (fun a => decide ((env a).2 ≠ "")) := by
  induction steps with
  | nil => simp [execSteps]
  | cons s rest ih =>
    by_cases hg : s.guard = true
    · by_cases hf : (env s.args).2 = ""
      · have hr : run env s.args = Except.ok (env s.args).1 := by simp [run, hf]
        simp [execSteps, hg, hr, List.filter_cons, hf, ih]
      · have hr : run env s.args = Except.error
            ("Error setting/getting PageKite confguration - " ++ (env s.args).2) := by
          simp [run, hf]
        simp [execSteps, hg, hr, List.filter_cons, hf]
    · simp [execSteps, hg, List.filter_cons, ih]

/-- C6: executing `_apply_changes` attempts exactly the emitted calls up
to and including the first one whose error output is nonempty (all of
them when none fails), and an exception propagates iff some attempted
call fails. -/
theorem apply_changes_stops_at_first_error (env : Env)
    (old_status new_status : Status) :
    ((execSteps env (applySteps old_status new_status)).calls =
      (applyTrace old_status new_status).take
        ((applyTrace old_status new_status).findIdx
          (fun a => decide ((env a).2 ≠ "")) + 1)) ∧
    ((execSteps env (applySteps old_status new_status)).error.isSome ↔
      ∃ a ∈ applyTrace old_status new_status, (env a).2 ≠ "") := by
  constructor
  · simpa [applyTrace] using execSteps_calls env (applySteps old_status new_status)
  · rw [show applyTrace old_status new_status =
        ((applySteps old_status new_status).filter (fun s => s.guard)).map
          (fun s => s.args) from rfl]
    rw [execSteps_error_isSome env (applySteps old_status new_status)]
    simp [List.any_eq_true]

end Pagekite

namespace Pagekite

lemma execSteps_messages_mem (env : Env) (steps : List Step) :
    ∀ p ∈ (execSteps env steps).messages, ∃ st ∈ steps, st.msg = some p := by
  induction steps with
  | nil => simp [execSteps]
  | cons s rest ih =>
    intro p hp
    by_cases hg : s.guard = true
    · by_cases hf : (env s.args).2 = ""
      · have hr : run env s.args = Except.ok (env s.args).1 := by simp [run, hf]
        rw [execSteps, if_pos hg, hr] at hp
        simp only [List.mem_append] at hp
        rcases hp with hp | hp
        · simp only [Option.mem_toList, Option.mem_def] at hp
          exact ⟨s, by simp, hp⟩
        · rcases ih p hp with ⟨st, hst, hm⟩
          exact ⟨st, by simp [hst], hm⟩
      · have hr : run env s.args = Except.error
            ("Error setting/getting PageKite confguration - " ++ (env s.args).2) := by
          simp [run, hf]
        rw [execSteps, if_pos hg, hr] at hp
        simp at hp
    · rw [execSteps, if_neg hg] at hp
      rcases ih p hp with ⟨st, hst, hm⟩
      exact ⟨st, by simp [hst], hm⟩

lemma execSteps_messages_of_no_error (env : Env) (steps : List Step)
    (h : (execSteps env steps).error = none) :
    (execSteps env steps).messages =
      (steps.filter (fun s => s.guard)).filterMap (fun s => s.msg) := by
  induction steps with
  | nil => simp [execSteps]
  | cons s rest ih =>
    by_cases hg : s.guard = true
    · by_cases hf : (env s.args).2 = ""
      · have hr : run env s.args = Except.ok (env s.args).1 := by simp [run, hf]
        rw [execSteps, if_pos hg, hr] at h ⊢
        simp only at h ⊢
        rw [ih h, List.filter_cons, if_pos hg, List.filterMap_cons]
        rcases s.msg with _ | m <;> simp
      · have hr : run env s.args = Except.error
            ("Error setting/getting PageKite confguration - " ++ (env s.args).2) := by
          simp [run, hf]
        rw [execSteps, if_pos hg, hr] at h
        simp at h
    · rw [execSteps, if_neg hg] at h ⊢
      rw [ih h, List.filter_cons, if_neg hg]

lemma applySteps_msg_success (old_status new_status : Status) :
    ∀ st ∈ applySteps old_status new_status, ∀ p : String × String,
      st.msg = some p → p.1 = "success" := by
  intro st hst p hp
  simp only [applySteps, List.mem_cons, List.not_mem_nil, or_false] at hst
  rcases hst with h | h | h | h | h | h <;> subst h <;>
    (try split_ifs at hp) <;> simp_all <;> exact hp ▸ rfl

end Pagekite

namespace Pagekite

lemma applyMessages_eq (old_status new_status : Status) :
    applyMessages old_status new_status =
      (if old_status.enabled ≠ new_status.enabled then
        [if new_status.enabled then ("success", "PageKite enabled")
          else ("success", "PageKite disabled")] else []) ++
      (if old_status.kite_name ≠ new_status.kite_name ∨
          old_status.kite_secret ≠ new_status.kite_secret then
        [("success", "Kite details set")] else []) ++
      (if old_status.http_enabled ≠ new_status.http_enabled then
        [("success", if new_status.http_enabled then "Service enabled: http"
          else "Service disabled: http")] else []) ++
      (if old_status.ssh_enabled ≠ new_status.ssh_enabled then
        [("success", if new_status.ssh_enabled then "Service enabled: ssh"
          else "Service disabled: ssh")] else []) := by
  by_cases h0 : old_status = new_status <;>
  by_cases h1 : old_status.enabled = new_status.enabled <;>
  by_cases h2 : old_status.kite_name ≠ new_status.kite_name ∨
      old_status.kite_secret ≠ new_status.kite_secret <;>
  by_cases h3 : old_status.http_enabled = new_status.http_enabled <;>
  by_cases h4 : old_status.ssh_enabled = new_status.ssh_enabled <;>
  simp_all [applyMessages, applySteps]

/-- C10: `_apply_changes` leaves `old_status` and `new_status` untouched
and only appends to `messages`: every appended pair is tagged
`success`, and when no call fails the appended pairs are exactly the
per-change-group messages, one per applied change group. -/
theorem apply_changes_frame (env : Env) (s : PyState) :
    ((applyChangesProc env s).1.old_status = s.old_status) ∧
    ((applyChangesProc env s).1.new_status = s.new_status) ∧
    ∃ tail,
      (applyChangesProc env s).1.messages = s.messages ++ tail ∧
      (∀ p ∈ tail, p.1 = "success") ∧
      ((applyChangesProc env s).2.error = none →
        tail = applyMessages s.old_status s.new_status ∧
        tail.length =
          ((if s.old_status.enabled ≠ s.new_status.enabled then 1 else 0) +
           (if s.old_status.kite_name ≠ s.new_status.kite_name ∨
              s.old_status.kite_secret ≠ s.new_status.kite_secret
             then 1 else 0) +
           (if s.old_status.http_enabled ≠ s.new_status.http_enabled
             then 1 else 0) +
           (if s.old_status.ssh_enabled ≠ s.new_status.ssh_enabled
             then 1 else 0))) := by
  refine ⟨rfl, rfl,
    (execSteps env (applySteps s.old_status s.new_status)).messages, rfl,
    ?_, ?_⟩
  · intro p hp
    rcases execSteps_messages_mem env _ p hp with ⟨st, hst, hm⟩
    exact applySteps_msg_success s.old_status s.new_status st hst p hm
  · intro herr
    have hmsg := execSteps_messages_of_no_error env
      (applySteps s.old_status s.new_status) herr
    constructor
    · rw [hmsg]; rfl
    · rw [hmsg]
      have : ((applySteps s.old_status s.new_status).filter
          (fun st => st.guard)).filterMap (fun st => st.msg) =
          applyMessages s.old_status s.new_status := rfl
      rw [this, applyMessages_eq]
      by_cases h1 : s.old_status.enabled = s.new_status.enabled <;>
      by_cases h2 : s.old_status.kite_name ≠ s.new_status.kite_name ∨
          s.old_status.kite_secret ≠ s.new_status.kite_secret <;>
      by_cases h3 : s.old_status.http_enabled = s.new_status.http_enabled <;>
      by_cases h4 : s.old_status.ssh_enabled = s.new_status.ssh_enabled <;>
      simp_all

/-- Two concrete status mappings used to instantiate the theorems. -/
def stA : Status := ⟨true, "mybox.pagekite.me", "secret1", true, false⟩

/-- A second concrete status mapping, differing from `stA` in every field. -/
def stB : Status := ⟨false, "other.pagekite.me", "secret2", false, true⟩

/-- Witness for `apply_changes_frame` at a concrete environment and state. -/
theorem apply_changes_frame_witness :
    ((applyChangesProc (fun _ => ("", "")) ⟨stA, stB, []⟩).1.old_status = stA) ∧
    ((applyChangesProc (fun _ => ("", "")) ⟨stA, stB, []⟩).1.new_status = stB) ∧
    ∃ tail,
      (applyChangesProc (fun _ => ("", "")) ⟨stA, stB, []⟩).1.messages =
        [] ++ tail ∧
      (∀ p ∈ tail, p.1 = "success") ∧
      ((applyChangesProc (fun _ => ("", "")) ⟨stA, stB, []⟩).2.error = none →
        tail = applyMessages stA stB ∧
        tail.length =
          ((if stA.enabled ≠ stB.enabled then 1 else 0) +
           (if stA.kite_name ≠ stB.kite_name ∨
              stA.kite_secret ≠ stB.kite_secret then 1 else 0) +
           (if stA.http_enabled ≠ stB.http_enabled then 1 else 0) +
           (if stA.ssh_enabled ≠ stB.ssh_enabled then 1 else 0))) :=
  apply_changes_frame (fun _ => ("", "")) ⟨stA, stB, []⟩

/-- Witness for `apply_changes_stop_start_iff_changed`: an unchanged
status emits no CLI call. -/
theorem apply_changes_stop_start_iff_changed_witness :
    statusFieldsEq stA stA ∧ applyTrace stA stA = [] :=
  ⟨by decide, (apply_changes_stop_start_iff_changed stA stA).2.2 (by decide)⟩

/-- Witness for `apply_changes_set_kite` at concrete statuses. -/
theorem apply_changes_set_kite_witness :
    (["set-kite", "--kite-name", "other.pagekite.me",
        "--kite-secret", "secret2"] ∈ applyTrace stA stB) ∧
    ["set-kite", "--kite-name", "other.pagekite.me",
        "--kite-secret", "secret2"] =
      ["set-kite", "--kite-name", stB.kite_name,
        "--kite-secret", stB.kite_secret] :=
  ⟨by decide, (apply_changes_set_kite stA stB).2 _ (by decide) (by decide)⟩

end Pagekite

namespace Pagekite

lemma except_bind_ok {ε α β : Type} (a : α) (f : α → Except ε β) :
    (Except.ok a : Except ε α) >>= f = f a := rfl

lemma except_bind_error {ε α β : Type} (e : ε) (f : α → Except ε β) :
    (Except.error e : Except ε α) >>= f = Except.error e := rfl

lemma except_bind_ok_inv {ε α β : Type} {x : Except ε α}
    {f : α → Except ε β} {r : β} (h : x >>= f = Except.ok r) :
    ∃ a, x = Except.ok a ∧ f a = Except.ok r := by
  cases x with
  | error e => rw [except_bind_error] at h; exact absurd h (by simp)
  | ok a => exact ⟨a, rfl, h⟩

lemma pyIdx_ok (l : List String) (i : Nat) (h : i < l.length) :
    pyIdx l i = Except.ok (l.getD i "") := by
  unfold pyIdx
  rcases hg : l.get? i with _ | x
  · rw [List.get?_eq_none] at hg; omega
  · have hx : l[i]? = some x := by rw [← List.get?_eq_getElem?]; exact hg
    simp [hx]

lemma runP_ok (env : Env) (arguments : List String)
    (h : (env arguments).2 = "") :
    runP env arguments = Except.ok (env arguments).1 := by
  simp [runP, run, h]

lemma runP_err (env : Env) (arguments : List String)
    (h : (env arguments).2 ≠ "") :
    runP env arguments = Except.error (PyErr.runError
      ("Error setting/getting PageKite confguration - " ++
        (env arguments).2)) := by
  simp [runP, run, h]

lemma runP_error_shape (env : Env) (arguments : List String) (e : PyErr)
    (h : runP env arguments = Except.error e) :
    ∃ msg, e = PyErr.runError msg := by
  by_cases hz : (env arguments).2 = ""
  · rw [runP_ok env arguments hz] at h
    exact absurd h (by simp)
  · rw [runP_err env arguments hz] at h
    exact ⟨_, (Except.error.inj h).symm⟩

lemma runP_ok_out (env : Env) (arguments : List String) (o : String)
    (h : runP env arguments = Except.ok o) : o = (env arguments).1 := by
  by_cases hz : (env arguments).2 = ""
  · rw [runP_ok env arguments hz] at h
    exact (Except.ok.inj h).symm
  · rw [runP_err env arguments hz] at h
    exact absurd h (by simp)

/-- A concrete environment describing an installed, enabled PageKite
with one kite and http on, ssh off. -/
def envInst : Env := fun args =>
  if args = ["get-installed"] then ("installed", "")
  else if args = ["get-status"] then ("enabled", "")
  else if args = ["get-kite"] then ("mybox.pagekite.me secret1", "")
  else if args = ["get-service-status", "http"] then ("enabled", "")
  else if args = ["get-service-status", "ssh"] then ("disabled", "")
  else ("", "")

/-- The status dictionary `get_status` builds under `envInst`. -/
def statusDictInst : List (String × PyValue) :=
  [("enabled", PyValue.bool true),
   ("kite_name", PyValue.str "mybox.pagekite.me"),
   ("kite_secret", PyValue.str "secret1"),
   ("service", PyValue.dict []),
   ("http_enabled", PyValue.bool true),
   ("ssh_enabled", PyValue.bool false)]

lemma get_status_envInst : get_status envInst = Except.ok (some statusDictInst) := rfl

/-- C7 counterexample: in the installed case `get_status` returns a
mapping that carries a sixth key `service` besides the five status
fields, so the mapping does not consist of exactly the five fields. -/
theorem get_status_extra_service_key_cex :
    get_status envInst = Except.ok (some statusDictInst) ∧
    "service" ∈ statusDictInst.map Prod.fst ∧
    "service" ∉ ["enabled", "kite_name", "kite_secret",
      "http_enabled", "ssh_enabled"] :=
  ⟨get_status_envInst, by decide, by decide⟩

/-- C7 as amended: whenever `get_status` returns a mapping, its keys are
exactly `enabled`, `kite_name`, `kite_secret`, `service`,
`http_enabled`, `ssh_enabled` in insertion order, where `enabled`,
`http_enabled` and `ssh_enabled` hold booleans, `kite_name` and
`kite_secret` hold strings, and `service` holds an empty dictionary. -/
theorem get_status_keys_amended (env : Env) (m : List (String × PyValue))
    (h : get_status env = Except.ok (some m)) :
    m.map Prod.fst = ["enabled", "kite_name", "kite_secret", "service",
      "http_enabled", "ssh_enabled"] ∧
    ∃ b1 : Bool, ∃ nm sec : String, ∃ b2 b3 : Bool,
      m = [("enabled", PyValue.bool b1), ("kite_name", PyValue.str nm),
        ("kite_secret", PyValue.str sec), ("service", PyValue.dict []),
        ("http_enabled", PyValue.bool b2),
        ("ssh_enabled", PyValue.bool b3)] := by
  unfold get_status at h
  obtain ⟨o1, hr1, h⟩ := except_bind_ok_inv h
  obtain ⟨tok, hi1, h⟩ := except_bind_ok_inv h
  by_cases ht : tok ≠ "installed"
  · rw [if_pos ht] at h
    exact absurd h (by simp [Pure.pure, Except.pure])
  · rw [if_neg ht] at h
    obtain ⟨o2, hr2, h⟩ := except_bind_ok_inv h
    obtain ⟨stok, hi2, h⟩ := except_bind_ok_inv h
    obtain ⟨o3, hr3, h⟩ := except_bind_ok_inv h
    obtain ⟨kn, hk1, h⟩ := except_bind_ok_inv h
    obtain ⟨ks, hk2, h⟩ := except_bind_ok_inv h
    obtain ⟨o4, hr4, h⟩ := except_bind_ok_inv h
    obtain ⟨htk, hh1, h⟩ := except_bind_ok_inv h
    obtain ⟨o5, hr5, h⟩ := except_bind_ok_inv h
    obtain ⟨stk, hs1, h⟩ := except_bind_ok_inv h
    simp only [Pure.pure, Except.pure, Except.ok.injEq,
      Option.some.injEq] at h
    subst h
    exact ⟨by simp, _, _, _, _, _, rfl⟩

/-- Witness for `get_status_keys_amended` at the concrete environment. -/
theorem get_status_keys_amended_witness :
    statusDictInst.map Prod.fst = ["enabled", "kite_name", "kite_secret",
      "service", "http_enabled", "ssh_enabled"] ∧
    ∃ b1 : Bool, ∃ nm sec : String, ∃ b2 b3 : Bool,
      statusDictInst = [("enabled", PyValue.bool b1),
        ("kite_name", PyValue.str nm), ("kite_secret", PyValue.str sec),
        ("service", PyValue.dict []), ("http_enabled", PyValue.bool b2),
        ("ssh_enabled", PyValue.bool b3)] :=
  get_status_keys_amended envInst statusDictInst get_status_envInst

end Pagekite

namespace Pagekite

/-- C8: when every queried CLI invocation has empty error output and
enough tokens, `get_status` returns `None` exactly when the first token
of `get-installed` is not `installed`, and otherwise returns the mapping
whose fields are read off the first (and for the kite, second) tokens of
the other outputs. -/
theorem get_status_token_semantics (env : Env)
    (e1 : (env ["get-installed"]).2 = "")
    (e2 : (env ["get-status"]).2 = "")
    (e3 : (env ["get-kite"]).2 = "")
    (e4 : (env ["get-service-status", "http"]).2 = "")
    (e5 : (env ["get-service-status", "ssh"]).2 = "")
    (t1 : 1 ≤ (pySplit (env ["get-installed"]).1).length)
    (t2 : 1 ≤ (pySplit (env ["get-status"]).1).length)
    (t3 : 2 ≤ (pySplit (env ["get-kite"]).1).length)
    (t4 : 1 ≤ (pySplit (env ["get-service-status", "http"]).1).length)
    (t5 : 1 ≤ (pySplit (env ["get-service-status", "ssh"]).1).length) :
    (get_status env = Except.ok none ↔
      (pySplit (env ["get-installed"]).1).getD 0 "" ≠ "installed") ∧
    ((pySplit (env ["get-installed"]).1).getD 0 "" = "installed" →
      get_status env = Except.ok (some
        [("enabled", PyValue.bool (decide
            ((pySplit (env ["get-status"]).1).getD 0 "" = "enabled"))),
         ("kite_name", PyValue.str ((pySplit (env ["get-kite"]).1).getD 0 "")),
         ("kite_secret", PyValue.str ((pySplit (env ["get-kite"]).1).getD 1 "")),
         ("service", PyValue.dict []),
         ("http_enabled", PyValue.bool (decide
            ((pySplit (env ["get-service-status", "http"]).1).getD 0 ""
              = "enabled"))),
         ("ssh_enabled", PyValue.bool (decide
            ((pySplit (env ["get-service-status", "ssh"]).1).getD 0 ""
              = "enabled")))])) := by
  have hg : get_status env =
      (if (pySplit (env ["get-installed"]).1).getD 0 "" ≠ "installed" then
        Except.ok none
      else
        Except.ok (some
          [("enabled", PyValue.bool (decide
              ((pySplit (env ["get-status"]).1).getD 0 "" = "enabled"))),
           ("kite_name", PyValue.str ((pySplit (env ["get-kite"]).1).getD 0 "")),
           ("kite_secret",
             PyValue.str ((pySplit (env ["get-kite"]).1).getD 1 "")),
           ("service", PyValue.dict []),
           ("http_enabled", PyValue.bool (decide
              ((pySplit (env ["get-service-status", "http"]).1).getD 0 ""
                = "enabled"))),
           ("ssh_enabled", PyValue.bool (decide
              ((pySplit (env ["get-service-status", "ssh"]).1).getD 0 ""
                = "enabled")))])) := by
    unfold get_status
    rw [runP_ok env ["get-installed"] e1, except_bind_ok,
      pyIdx_ok _ 0 (by omega), except_bind_ok,
      runP_ok env ["get-status"] e2, except_bind_ok,
      pyIdx_ok _ 0 (by omega), except_bind_ok,
      runP_ok env ["get-kite"] e3, except_bind_ok,
      pyIdx_ok _ 0 (by omega), except_bind_ok,
      pyIdx_ok _ 1 (by omega), except_bind_ok,
      runP_ok env ["get-service-status", "http"] e4, except_bind_ok,
      pyIdx_ok _ 0 (by omega), except_bind_ok,
      runP_ok env ["get-service-status", "ssh"] e5, except_bind_ok,
      pyIdx_ok _ 0 (by omega), except_bind_ok]
    rfl
  constructor
  · constructor
    · intro h
      rw [hg] at h
      by_cases hk : (pySplit (env ["get-installed"]).1).getD 0 "" ≠ "installed"
      · exact hk
      · rw [if_neg hk] at h
        exact absurd h (by simp)
    · intro hk
      rw [hg, if_pos hk]
  · intro hk
    rw [hg, if_neg (not_not_intro hk)]

end Pagekite

namespace Pagekite

/-- Witness for `get_status_token_semantics` at the concrete environment. -/
theorem get_status_token_semantics_witness :
    get_status envInst = Except.ok (some statusDictInst) :=
  (get_status_token_semantics envInst rfl rfl rfl rfl rfl
    (by decide) (by decide) (by decide) (by decide) (by decide)).2 (by decide)

/-- C9: `get_status` never raises an `IndexError` provided every queried
CLI output has at least one whitespace-separated token and the
`get-kite` output has at least two; outside that precondition it can
raise one, e.g. when every CLI output is the empty string. -/
theorem get_status_indexing_safety :
    (∀ env : Env,
      1 ≤ (pySplit (env ["get-installed"]).1).length →
      1 ≤ (pySplit (env ["get-status"]).1).length →
      2 ≤ (pySplit (env ["get-kite"]).1).length →
      1 ≤ (pySplit (env ["get-service-status", "http"]).1).length →
      1 ≤ (pySplit (env ["get-service-status", "ssh"]).1).length →
      get_status env ≠ Except.error PyErr.indexError) ∧
    get_status (fun _ => ("", "")) = Except.error PyErr.indexError := by
  constructor
  · intro env t1 t2 t3 t4 t5 h
    unfold get_status at h
    cases hr1 : runP env ["get-installed"] with
    | error e =>
      rw [hr1, except_bind_error] at h
      obtain ⟨msg, rfl⟩ := runP_error_shape env _ e hr1
      simp at h
    | ok o1 =>
      rw [hr1, except_bind_ok] at h
      obtain rfl := runP_ok_out env _ o1 hr1
      rw [pyIdx_ok _ 0 (by omega), except_bind_ok] at h
      by_cases hk : (pySplit (env ["get-installed"]).1).getD 0 "" ≠ "installed"
      · rw [if_pos hk] at h
        exact absurd h (by simp [Pure.pure, Except.pure])
      · rw [if_neg hk] at h
        cases hr2 : runP env ["get-status"] with
        | error e =>
          rw [hr2, except_bind_error] at h
          obtain ⟨msg, rfl⟩ := runP_error_shape env _ e hr2
          simp at h
        | ok o2 =>
          rw [hr2, except_bind_ok] at h
          obtain rfl := runP_ok_out env _ o2 hr2
          rw [pyIdx_ok _ 0 (by omega), except_bind_ok] at h
          cases hr3 : runP env ["get-kite"] with
          | error e =>
            rw [hr3, except_bind_error] at h
            obtain ⟨msg, rfl⟩ := runP_error_shape env _ e hr3
            simp at h
          | ok o3 =>
            rw [hr3, except_bind_ok] at h
            obtain rfl := runP_ok_out env _ o3 hr3
            rw [pyIdx_ok _ 0 (by omega), except_bind_ok,
              pyIdx_ok _ 1 (by omega), except_bind_ok] at h
            cases hr4 : runP env ["get-service-status", "http"] with
            | error e =>
              rw [hr4, except_bind_error] at h
              obtain ⟨msg, rfl⟩ := runP_error_shape env _ e hr4
              simp at h
            | ok o4 =>
              rw [hr4, except_bind_ok] at h
              obtain rfl := runP_ok_out env _ o4 hr4
              rw [pyIdx_ok _ 0 (by omega), except_bind_ok] at h
              cases hr5 : runP env ["get-service-status", "ssh"] with
              | error e =>
                rw [hr5, except_bind_error] at h
                obtain ⟨msg, rfl⟩ := runP_error_shape env _ e hr5
                simp at h
              | ok o5 =>
                rw [hr5, except_bind_ok] at h
                obtain rfl := runP_ok_out env _ o5 hr5
                rw [pyIdx_ok _ 0 (by omega), except_bind_ok] at h
                exact absurd h (by simp [Pure.pure, Except.pure])
  · rfl

/-- Witness for `get_status_indexing_safety` at the concrete environment. -/
theorem get_status_indexing_safety_witness :
    get_status envInst ≠ Except.error PyErr.indexError :=
  get_status_indexing_safety.1 envInst (by decide) (by decide) (by decide)
    (by decide) (by decide)

end Pagekite
